import Mathlib

/-!
Verification development for the `profilecreds` Go package: a shallow
embedding of `profilecreds.go` (the assume-role provider) and `cache.go`
(the file-backed cache), with theorems about the retrieval algorithm.

Modelling conventions:
* `time.Time` is an absolute instant (`Int`, nanoseconds since the Unix
  epoch, unbounded as a mathematical integer) plus a location flag; `UTC()`
  only changes the location flag, and `Before` compares instants, exactly
  as in Go.
* Go `error` is modelled as `Option String` (`none` = nil error) and
  fallible collaborators return `Except String _`.
* External collaborators (the STS `AssumeRole` call, the MFA token source,
  JSON marshalling/unmarshalling, the config parse used by the file cache)
  are fields of an environment record `Env`, so each theorem quantifies
  over their behaviour.
* A Go method call on a nil interface value panics; the provider's `Cache`
  field is therefore an `Option`, and `Retrieve` returns `none` (crash)
  when the code would dereference a nil `Cache`.
* Side effects are made observable: the result of `Retrieve` records the
  cache state after the call, whether the token source was invoked, and
  the list of `AssumeRole` network calls issued.
-/

namespace Profilecreds

/-- Go `time.Time`: an instant in nanoseconds since the Unix epoch plus a
location; `UTC()` changes only the location. -/
structure Time where
  instant : Int
  isUTC : Bool
deriving DecidableEq, Repr

/-- Go `t.UTC()`: same instant, location set to UTC. -/
def Time.utc (t : Time) : Time :=
  { t with isUTC := true }

/-- Go `a.Before(b)`: instants are compared, location is irrelevant. -/
def Time.before (a b : Time) : Bool :=
  a.instant < b.instant

/-- The zero `time.Time` (0001-01-01 00:00:00 UTC) expressed in nanoseconds
since the Unix epoch. -/
def goZeroTime : Time :=
  { instant := -62135596800000000000, isUTC := true }

/-- `const ProviderName = "AssumeRoleProfileProvider"`. -/
def ProviderName : String := "AssumeRoleProfileProvider"

/-- `var DefaultDuration = time.Duration(15) * time.Minute`, in
nanoseconds. -/
def DefaultDuration : Int := 900000000000

/-- `credentials.Value` from the AWS SDK, as used by this package. -/
structure Value where
  accessKeyID : String
  secretAccessKey : String
  sessionToken : String
  providerName : String
deriving DecidableEq, Repr

/-- The zero `credentials.Value`. -/
def zeroValue : Value :=
  { accessKeyID := "", secretAccessKey := "", sessionToken := "", providerName := "" }

/-- `credentials.Value{ProviderName: ProviderName}`: the value returned on
every failure path, carrying only the provider-name tag. -/
def taggedZeroValue : Value :=
  { zeroValue with providerName := ProviderName }

/-- The `profile` struct: role-assumption parameters read from the AWS CLI
config file. Pointer-valued optional fields become `Option String`
(`none` = nil pointer = field absent). -/
structure Profile where
  name : String
  roleARN : String
  sourceProfileName : String
  roleSessionName : Option String
  mfaSerial : Option String
  externalID : Option String
deriving DecidableEq, Repr

/-- The zero `profile` value. -/
def zeroProfile : Profile :=
  { name := "", roleARN := "", sourceProfileName := "",
    roleSessionName := none, mfaSerial := none, externalID := none }

/-- The `creds` struct: the credential cache record pairing a profile with
derived credentials and their expiration. -/
structure Creds where
  credentials : Value
  expiration : Time
  profile : Profile
deriving DecidableEq, Repr

/-- The zero `creds` value, produced by `var cached creds` when the cache
holds no (or malformed) data. -/
def zeroCreds : Creds :=
  { credentials := zeroValue, expiration := goZeroTime, profile := zeroProfile }

/-- `func (c *creds) Match(p *profile) bool`: `reflect.DeepEqual` of the two
profile structs, i.e. field-for-field equality including presence/absence
of the optional pointer fields. -/
def Creds.match (c : Creds) (p : Profile) : Bool :=
  c.profile = p

/-- `func (c *creds) IsExpired() bool`: `c.Expiration.UTC().Before(time.Now().UTC())`.
Note the provider's `ExpiryWindow` field does not appear here. -/
def Creds.isExpired (c : Creds) (now : Time) : Bool :=
  c.expiration.utc.before now.utc

/-- `sts.AssumeRoleInput` as populated by `retrieve`. -/
structure AssumeRoleInput where
  durationSeconds : Int
  roleArn : String
  roleSessionName : String
  externalId : Option String
  serialNumber : Option String
  tokenCode : Option String
deriving DecidableEq, Repr

/-- The fields of `sts.AssumeRoleOutput.Credentials` that `retrieve`
reads. -/
structure AssumeRoleOutput where
  accessKeyId : String
  secretAccessKey : String
  sessionToken : String
  expiration : Time
deriving DecidableEq, Repr

/-- The external world of one `Retrieve` call: the clock, the MFA token
source outcome, the STS endpoint, and JSON (de)serialization. -/
structure Env where
  now : Time
  tokenResult : Except String String
  assumeRole : AssumeRoleInput → Except String AssumeRoleOutput
  marshal : Creds → Option String
  unmarshal : String → Option Creds

/-- The cache contents as a string-keyed association list, newest binding
first (models the `map[string]string` of `FileCache` / any `Cache`
implementation at the granularity `Retrieve` observes). -/
abbrev CacheMap := List (String × String)

/-- `Cache.Get`: the stored value and `true` when present, else the zero
string and `false`. -/
def cacheGet (c : CacheMap) (k : String) : String × Bool :=
  match List.find? (fun kv => kv.1 == k) c with
  | some kv => (kv.2, true)
  | none => ("", false)

/-- `Cache.Set`: upsert, overwriting any existing value for the key. -/
def cacheSet (c : CacheMap) (k v : String) : CacheMap :=
  (k, v) :: List.filter (fun kv => kv.1 != k) c

/-- `AssumeRoleProfileProvider`, with `Cache` as an `Option` (`none` models
a nil interface). `GetToken` is not a field here: whether the caller
supplied a source or the default prompt is installed, its one invocation
is modelled by `Env.tokenResult`. -/
structure Provider where
  duration : Int
  profileName : String
  cache : Option CacheMap
  expiryWindow : Int
deriving Repr

/-- `func NewCredentials(profileName string, options ...)`: constructs the
provider with the default duration and applies the functional options.
(The surrounding `credentials.NewCredentials` wrapper is outside the
package.) -/
def NewCredentials (profileName : String)
    (options : List (Provider → Provider)) : Provider :=
  List.foldl (fun p o => o p)
    { duration := DefaultDuration, profileName := profileName,
      cache := none, expiryWindow := 0 } options

/-- `func (p *AssumeRoleProfileProvider) loadCachedCreds() *creds`:
`var cached creds`; if the `"credentials"` key is present, unmarshal into
it (a failed unmarshal leaves the zero value). -/
def loadCachedCreds (env : Env) (cache : CacheMap) : Creds :=
  match cacheGet cache "credentials" with
  | (s, true) => (env.unmarshal s).getD zeroCreds
  | (_, false) => zeroCreds

/-- The `sts.AssumeRoleInput` that `retrieve` builds, up to the MFA gate:
duration in whole seconds (Go truncating int64 division), role ARN, the
configured session name or one synthesized from `time.Now().UTC().UnixNano()`,
and the optional external id. -/
def baseParams (env : Env) (effDuration : Int) (prof : Profile) : AssumeRoleInput :=
  { durationSeconds := Int.tdiv effDuration 1000000000,
    roleArn := prof.roleARN,
    roleSessionName := prof.roleSessionName.getD (toString env.now.instant),
    externalId := prof.externalID,
    serialNumber := none,
    tokenCode := none }

/-- The effective duration: `if p.Duration == 0` use `DefaultDuration`. -/
def effectiveDuration (p : Provider) : Int :=
  if p.duration = 0 then DefaultDuration else p.duration

/-- The MFA gate of `retrieve`: if the profile names an MFA device, invoke
the token source once; on failure propagate its error, otherwise attach
serial number and token code to the request parameters. -/
def mkParams (env : Env) (p : Provider) (prof : Profile) : Except String AssumeRoleInput :=
  match prof.mfaSerial with
  | none => Except.ok (baseParams env (effectiveDuration p) prof)
  | some serial =>
    match env.tokenResult with
    | Except.error e => Except.error e
    | Except.ok token =>
      Except.ok { baseParams env (effectiveDuration p) prof with
                    serialNumber := some serial, tokenCode := some token }

/-- The `credentials.Value` literal built from a successful `AssumeRole`
response (lines 218-223 of the source). -/
def outputValue (out : AssumeRoleOutput) : Value :=
  { accessKeyID := out.accessKeyId,
    secretAccessKey := out.secretAccessKey,
    sessionToken := out.sessionToken,
    providerName := ProviderName }

/-- The result of the inner `retrieve`, with the observable effects it
caused: the Go return triple `(credentials.Value, time.Time, error)`, a
flag recording whether the token source was invoked, and the list of
`AssumeRole` network calls issued. -/
structure InnerResult where
  value : Value
  expiration : Time
  error : Option String
  tokenInvoked : Bool
  networkCalls : List AssumeRoleInput
deriving Repr

/-- `func (p *AssumeRoleProfileProvider) retrieve(prof profile)`: build the
request (defaulting session name and duration), invoke the token source if
MFA is configured (aborting on its error), issue `AssumeRole` (propagating
its error), and on success return the credentials and the expiry
normalized to UTC. Every failure path returns the tagged zero value and
`time.Now()`. -/
def retrieveInner (env : Env) (p : Provider) (prof : Profile) : InnerResult :=
  let tok := prof.mfaSerial.isSome
  match mkParams env p prof with
  | Except.error e =>
    { value := taggedZeroValue, expiration := env.now, error := some e,
      tokenInvoked := tok, networkCalls := [] }
  | Except.ok params =>
    match env.assumeRole params with
    | Except.error e =>
      { value := taggedZeroValue, expiration := env.now, error := some e,
        tokenInvoked := tok, networkCalls := [params] }
    | Except.ok out =>
      { value := outputValue out,
        expiration := out.expiration.utc, error := none,
        tokenInvoked := tok, networkCalls := [params] }

/-- Lines 117-119 of the source: marshal the new record and, only when
marshalling succeeds, store it under the `"credentials"` key (a
serialization failure is silently swallowed). -/
def persistRecord (env : Env) (cache : CacheMap) (rec : Creds) : CacheMap :=
  match env.marshal rec with
  | some s => cacheSet cache "credentials" s
  | none => cache

/-- The observable outcome of `Retrieve`: the Go return pair, the cache
state after the call, and the effects of the live-refresh path. -/
structure RetrieveResult where
  value : Value
  error : Option String
  cacheAfter : Option CacheMap
  tokenInvoked : Bool
  networkCalls : List AssumeRoleInput
deriving Repr

/-- `func (p *AssumeRoleProfileProvider) Retrieve() (credentials.Value, error)`.
`loadProfileResult` is the outcome of `p.loadProfile()` (external config
parsing). A `none` result models the Go runtime panic from calling
`p.Cache.Get` on a nil `Cache` interface. Faithful to the source, the
error returned by the inner `retrieve` is discarded: the refresh branch
always returns a nil error. -/
def Retrieve (env : Env) (p : Provider)
    (loadProfileResult : Except String Profile) : Option RetrieveResult :=
  match loadProfileResult with
  | Except.error e =>
    some { value := taggedZeroValue, error := some e, cacheAfter := p.cache,
           tokenInvoked := false, networkCalls := [] }
  | Except.ok prof =>
    match p.cache with
    | none => none
    | some cache =>
      let cachedCreds := loadCachedCreds env cache
      if cachedCreds.match prof && !cachedCreds.isExpired env.now then
        some { value := cachedCreds.credentials, error := none,
               cacheAfter := some cache, tokenInvoked := false, networkCalls := [] }
      else
        let inner := retrieveInner env p prof
        let newRec : Creds :=
          { profile := prof, credentials := inner.value, expiration := inner.expiration }
        some { value := newRec.credentials, error := none,
               cacheAfter := some (persistRecord env cache newRec),
               tokenInvoked := inner.tokenInvoked,
               networkCalls := inner.networkCalls }

/-- `FileCache` from `cache.go`: the lazily-initialized in-memory map
(`none` = Go nil map, not yet initialized) and the backing file's contents
(`none` = the file is missing or unreadable, so `os.Open` fails). -/
structure FileCache where
  data : Option CacheMap
  file : Option String
deriving Repr

/-- `func (f *FileCache) readConf()`: allocate an empty map; if the file
cannot be opened, keep it empty; otherwise decode, and on a decode failure
the map stays empty. `parse` models `json.NewDecoder(file).Decode`. -/
def FileCache.readConf (parse : String → Option CacheMap) (f : FileCache) : FileCache :=
  { f with data := some ((f.file.bind parse).getD []) }

/-- `func (f *FileCache) Get(key string) (string, bool)`: initialize the map
from the backing store on first access, then look the key up. Returns the
result and the cache after the call. -/
def FileCache.get (parse : String → Option CacheMap) (f : FileCache)
    (key : String) : (String × Bool) × FileCache :=
  let f := if f.data.isNone then f.readConf parse else f
  (cacheGet (f.data.getD []) key, f)

/-! ## Concrete fixtures used by the counterexample and witness theorems -/

/-- A profile without MFA, in the shape of the README example
(`role_arn`, `source_profile`, plus a configured session name). -/
def sampleProf : Profile :=
  { name := "prod", roleARN := "arn:aws:iam::11111:role/X",
    sourceProfileName := "dev", roleSessionName := some "sess",
    mfaSerial := none, externalID := none }

/-- `sampleProf` with an MFA device configured. -/
def mfaProf : Profile :=
  { sampleProf with mfaSerial := some "arn:aws:iam::11111:mfa/Y" }

/-- A concrete clock reading (2023-11-14T22:13:20Z in nanoseconds). -/
def fixedNow : Time :=
  { instant := 1700000000000000000, isUTC := false }

/-- Environment in which the MFA token source fails and the STS endpoint is
never reachable. -/
def envTokenFail : Env :=
  { now := fixedNow,
    tokenResult := Except.error "failed to read MFA token",
    assumeRole := fun _ => Except.error "unreachable endpoint",
    marshal := fun _ => some "recjson",
    unmarshal := fun _ => none }

/-- A provider with an empty (but present) cache. -/
def provEmptyCache : Provider :=
  { duration := DefaultDuration, profileName := "prod",
    cache := some [], expiryWindow := 0 }

/-- A recently-expired cache record for `sampleProf` (expired one second
before `fixedNow`). -/
def expiredRec : Creds :=
  { credentials := { accessKeyID := "AKOLD", secretAccessKey := "SKOLD",
                     sessionToken := "TOKOLD", providerName := ProviderName },
    expiration := { instant := 1699999999000000000, isUTC := true },
    profile := sampleProf }

/-- Environment in which the role-assumption exchange fails and the cache
deserializes to `expiredRec`. -/
def envExchangeFail : Env :=
  { now := fixedNow,
    tokenResult := Except.ok "123456",
    assumeRole := fun _ => Except.error "RequestError: connection refused",
    marshal := fun _ => some "newjson",
    unmarshal := fun s => if s = "oldjson" then some expiredRec else none }

/-- A provider whose cache holds the serialized `expiredRec`. -/
def provExpiredCache : Provider :=
  { duration := DefaultDuration, profileName := "prod",
    cache := some [("credentials", "oldjson")], expiryWindow := 0 }

/-! ## Theorems -/

/-- C1: the claim states that when the Token Source fails during a live
refresh, `Retrieve` returns that error and never a nil error. The code
violates this: the inner `retrieve` does abort (no `AssumeRole` call is
issued, so no request with an empty code), but `Retrieve` discards the
returned error. Evaluating the code at the failing input — an MFA profile,
an empty cache, and a failing token source — `Retrieve` returns the tagged
zero credentials with a nil error, issuing no network call. -/
theorem c1_token_failure_error_swallowed :
    Retrieve envTokenFail provEmptyCache (Except.ok mfaProf) =
      some { value := taggedZeroValue, error := none,
             cacheAfter := some [("credentials", "recjson")],
             tokenInvoked := true, networkCalls := [] } := by
  rfl

/-- C2: the claim states that a failed role-assumption exchange is returned
verbatim as `Retrieve`'s error result. The code violates this: at a
concrete input where the exchange fails and a recently-expired cached
record exists, `Retrieve` returns a nil error with the tagged zero
credentials (it does correctly not fall back to the expired cached
record, and the failure is immediate — exactly one network call). -/
theorem c2_exchange_failure_error_swallowed :
    Retrieve envExchangeFail provExpiredCache (Except.ok sampleProf) =
      some { value := taggedZeroValue, error := none,
             cacheAfter := some [("credentials", "newjson")],
             tokenInvoked := false,
             networkCalls := [{ durationSeconds := 900,
                                roleArn := "arn:aws:iam::11111:role/X",
                                roleSessionName := "sess",
                                externalId := none, serialNumber := none,
                                tokenCode := none }] } := by
  rfl

/-- A cache record for `sampleProf` expiring five seconds after
`fixedNow`. -/
def soonRec : Creds :=
  { credentials := { accessKeyID := "AKSOON", secretAccessKey := "SKSOON",
                     sessionToken := "TOKSOON", providerName := ProviderName },
    expiration := { instant := 1700000005000000000, isUTC := true },
    profile := sampleProf }

/-- Environment whose cache deserializes to `soonRec`. -/
def envSoon : Env :=
  { now := fixedNow,
    tokenResult := Except.ok "123456",
    assumeRole := fun _ => Except.error "should not be called",
    marshal := fun _ => some "newjson",
    unmarshal := fun s => if s = "soonjson" then some soonRec else none }

/-- A provider with a ten-second early-refresh window and a cache holding
the serialized `soonRec`. -/
def provWindow : Provider :=
  { duration := DefaultDuration, profileName := "prod",
    cache := some [("credentials", "soonjson")],
    expiryWindow := 10000000000 }

/-- C3: the claim states a record is usable only when its expiration minus
the early-refresh window is strictly in the future. The code violates
this: the `ExpiryWindow` field is never consulted by `creds.IsExpired`
(contradicting the field's own documentation). At a concrete input with a
ten-second window and a matching record expiring in five seconds —
so expiration minus the window is in the past — `Retrieve` returns the
cached credentials without any live refresh. -/
theorem c3_expiry_window_ignored :
    soonRec.expiration.instant - provWindow.expiryWindow < envSoon.now.instant ∧
    Retrieve envSoon provWindow (Except.ok sampleProf) =
      some { value := soonRec.credentials, error := none,
             cacheAfter := some [("credentials", "soonjson")],
             tokenInvoked := false, networkCalls := [] } := by
  exact ⟨by decide, by rfl⟩

/-- C6: the claim states that with no configured cache a file-backed cache
is used by default, so `Retrieve` still completes. The code violates
this: `NewCredentials` leaves `Cache` nil, and `Retrieve` then calls
`p.Cache.Get` on the nil interface, which panics (modelled by `none`). -/
theorem c6_no_default_cache_panics :
    (NewCredentials "prod" []).cache = none ∧
    Retrieve envTokenFail (NewCredentials "prod" []) (Except.ok sampleProf) = none := by
  exact ⟨rfl, rfl⟩

/-- C4: when the cached record's embedded profile equals the loaded profile
field-for-field and the record is not expired, `Retrieve` returns the
cached credentials unchanged with no network call and no token-source
invocation, and leaves the cache untouched; consequently an immediate
second call on the resulting state is the very same call and returns the
identical result. -/
theorem c4_cache_hit_fast_path (env : Env) (p : Provider) (prof : Profile)
    (cache : CacheMap)
    (hc : p.cache = some cache)
    (hm : (loadCachedCreds env cache).match prof = true)
    (he : (loadCachedCreds env cache).isExpired env.now = false) :
    Retrieve env p (Except.ok prof) =
      some { value := (loadCachedCreds env cache).credentials, error := none,
             cacheAfter := some cache, tokenInvoked := false, networkCalls := [] } ∧
    Retrieve env { p with cache := some cache } (Except.ok prof) =
      Retrieve env p (Except.ok prof) := by
  have hp : ({ p with cache := some cache } : Provider) = p := by
    cases p
    simp_all
  rw [hp]
  refine ⟨?_, rfl⟩
  simp [Retrieve, hc, hm, he]

/-- A non-expired cache record for `sampleProf` (expires 900 seconds after
`fixedNow`). -/
def validRec : Creds :=
  { credentials := { accessKeyID := "AKVALID", secretAccessKey := "SKVALID",
                     sessionToken := "TOKVALID", providerName := ProviderName },
    expiration := { instant := 1700000900000000000, isUTC := true },
    profile := sampleProf }

/-- Environment whose cache deserializes to `validRec`. -/
def envValid : Env :=
  { now := fixedNow,
    tokenResult := Except.ok "123456",
    assumeRole := fun _ => Except.error "should not be called",
    marshal := fun _ => some "newjson",
    unmarshal := fun s => if s = "validjson" then some validRec else none }

/-- The cache contents holding the serialized `validRec`. -/
def validCache : CacheMap := [("credentials", "validjson")]

/-- A provider whose cache is `validCache`. -/
def provValidCache : Provider :=
  { duration := DefaultDuration, profileName := "prod",
    cache := some validCache, expiryWindow := 0 }

/-- Witness for C4 at a concrete valid cached record. -/
theorem c4_cache_hit_fast_path_witness :
    Retrieve envValid provValidCache (Except.ok sampleProf) =
      some { value := (loadCachedCreds envValid validCache).credentials,
             error := none, cacheAfter := some validCache,
             tokenInvoked := false, networkCalls := [] } ∧
    Retrieve envValid { provValidCache with cache := some validCache }
        (Except.ok sampleProf) =
      Retrieve envValid provValidCache (Except.ok sampleProf) :=
  c4_cache_hit_fast_path envValid provValidCache sampleProf validCache rfl rfl rfl

/-- C5: `Match` requires every profile field to be equal: a cached record
whose embedded profile differs from the requested profile in any single
field — including a difference only in an optional field's presence — is
never a cache hit. -/
theorem c5_any_field_mismatch_is_no_hit (c : Creds) (p : Profile)
    (h : c.profile.name ≠ p.name ∨ c.profile.roleARN ≠ p.roleARN ∨
         c.profile.sourceProfileName ≠ p.sourceProfileName ∨
         c.profile.roleSessionName ≠ p.roleSessionName ∨
         c.profile.mfaSerial ≠ p.mfaSerial ∨
         c.profile.externalID ≠ p.externalID) :
    c.match p = false := by
  have hne : c.profile ≠ p := by
    intro heq
    rcases h with h | h | h | h | h | h <;> exact h (by rw [heq])
  simpa [Creds.match] using hne

/-- `sampleProf` with an external id added: every field of `validRec`'s
embedded profile agrees except the presence of `ExternalID`. -/
def extProf : Profile := { sampleProf with externalID := some "123" }

/-- Witness for C5: a record differing from the requested profile only in
the presence of the optional external id is not a cache hit. -/
theorem c5_any_field_mismatch_is_no_hit_witness :
    Creds.match validRec extProf = false :=
  c5_any_field_mismatch_is_no_hit validRec extProf
    (Or.inr (Or.inr (Or.inr (Or.inr (Or.inr (by decide))))))

/-- C7: for a profile with no MFA device identifier, the live-refresh path
never invokes the token source, and every role-assumption request it
issues carries no MFA serial number and no token code. -/
theorem c7_no_mfa_no_token_source (env : Env) (p : Provider) (prof : Profile)
    (h : prof.mfaSerial = none) :
    (retrieveInner env p prof).tokenInvoked = false ∧
    ∀ inp ∈ (retrieveInner env p prof).networkCalls,
      inp.serialNumber = none ∧ inp.tokenCode = none := by
  simp only [retrieveInner, mkParams, h, Option.isSome_none]
  cases env.assumeRole (baseParams env (effectiveDuration p) prof) <;>
    simp [baseParams]

/-- Witness for C7 at a concrete MFA-free profile. -/
theorem c7_no_mfa_no_token_source_witness :
    (retrieveInner envExchangeFail provEmptyCache sampleProf).tokenInvoked = false ∧
    ∀ inp ∈ (retrieveInner envExchangeFail provEmptyCache sampleProf).networkCalls,
      inp.serialNumber = none ∧ inp.tokenCode = none :=
  c7_no_mfa_no_token_source envExchangeFail provEmptyCache sampleProf rfl

/-- C8: when the role-assumption exchange succeeds on a cache miss,
`Retrieve` builds the new record from the returned credentials with the
expiry normalized to UTC, persists it under the `"credentials"` key
(through `persistRecord`, which swallows a serialization failure), and
returns the new credentials. -/
theorem c8_success_persists_and_returns (env : Env) (p : Provider)
    (prof : Profile) (cache : CacheMap) (params : AssumeRoleInput)
    (out : AssumeRoleOutput)
    (hc : p.cache = some cache)
    (hmiss : ((loadCachedCreds env cache).match prof &&
              !(loadCachedCreds env cache).isExpired env.now) = false)
    (hp : mkParams env p prof = Except.ok params)
    (hs : env.assumeRole params = Except.ok out) :
    Retrieve env p (Except.ok prof) =
      some { value := outputValue out, error := none,
             cacheAfter := some (persistRecord env cache
               { profile := prof, credentials := outputValue out,
                 expiration := out.expiration.utc }),
             tokenInvoked := prof.mfaSerial.isSome,
             networkCalls := [params] } := by
  simp [Retrieve, hc, hmiss, retrieveInner, hp, hs]

/-- The request parameters `retrieve` builds for `sampleProf` with the
default duration. -/
def sampleParams : AssumeRoleInput :=
  { durationSeconds := 900, roleArn := "arn:aws:iam::11111:role/X",
    roleSessionName := "sess", externalId := none,
    serialNumber := none, tokenCode := none }

/-- A successful `AssumeRole` response (expiry in a non-UTC location). -/
def successOut : AssumeRoleOutput :=
  { accessKeyId := "AKNEW", secretAccessKey := "SKNEW",
    sessionToken := "TOKNEW",
    expiration := { instant := 1700000900000000000, isUTC := false } }

/-- Environment in which the role-assumption exchange succeeds with
`successOut`. -/
def envSuccess : Env :=
  { now := fixedNow,
    tokenResult := Except.ok "123456",
    assumeRole := fun _ => Except.ok successOut,
    marshal := fun _ => some "newjson",
    unmarshal := fun _ => none }

/-- Witness for C8: the successful scenario of spec Scenario A (no MFA,
empty cache, one exchange). -/
theorem c8_success_persists_and_returns_witness :
    Retrieve envSuccess provEmptyCache (Except.ok sampleProf) =
      some { value := outputValue successOut, error := none,
             cacheAfter := some (persistRecord envSuccess []
               { profile := sampleProf, credentials := outputValue successOut,
                 expiration := successOut.expiration.utc }),
             tokenInvoked := sampleProf.mfaSerial.isSome,
             networkCalls := [sampleParams] } :=
  c8_success_persists_and_returns envSuccess provEmptyCache sampleProf []
    sampleParams successOut rfl rfl rfl rfl

/-- C9: a missing or unparsable backing file yields an empty map in
`FileCache` (no error is ever produced), a missing or malformed cached
`"credentials"` entry yields the zero record, and `Retrieve` never
returns an error on account of the cache when the profile loads. -/
theorem c9_corrupt_cache_treated_as_empty (parse : String → Option CacheMap)
    (s k : String) (env : Env) (cache : CacheMap) (str : String)
    (hbad : parse s = none) (hu : env.unmarshal str = none) :
    (FileCache.get parse { data := none, file := none } k).1 = ("", false) ∧
    (FileCache.get parse { data := none, file := some s } k).1 = ("", false) ∧
    loadCachedCreds env [] = zeroCreds ∧
    (cacheGet cache "credentials" = (str, true) →
      loadCachedCreds env cache = zeroCreds) ∧
    (∀ (p : Provider) (prof : Profile) (c : CacheMap), p.cache = some c →
      ∃ r, Retrieve env p (Except.ok prof) = some r ∧ r.error = none) := by
  refine ⟨rfl, ?_, rfl, ?_, ?_⟩
  · simp [FileCache.get, FileCache.readConf, hbad, cacheGet]
  · intro hg
    simp [loadCachedCreds, hg, hu]
  · intro p prof c hcs
    simp only [Retrieve, hcs]
    split
    · exact ⟨_, rfl, rfl⟩
    · exact ⟨_, rfl, rfl⟩

/-- Witness for C9 at a concrete unparsable backing file and malformed
cache entry. -/
theorem c9_corrupt_cache_treated_as_empty_witness :
    (FileCache.get (fun _ => none) { data := none, file := none } "credentials").1
        = ("", false) ∧
    (FileCache.get (fun _ => none) { data := none, file := some "garbage" }
        "credentials").1 = ("", false) ∧
    loadCachedCreds envTokenFail [] = zeroCreds ∧
    (cacheGet [("credentials", "x")] "credentials" = ("x", true) →
      loadCachedCreds envTokenFail [("credentials", "x")] = zeroCreds) ∧
    (∀ (p : Provider) (prof : Profile) (c : CacheMap), p.cache = some c →
      ∃ r, Retrieve envTokenFail p (Except.ok prof) = some r ∧ r.error = none) :=
  c9_corrupt_cache_treated_as_empty (fun _ => none) "garbage" "credentials"
    envTokenFail [("credentials", "x")] "x" rfl rfl

/-- On every failure path the inner `retrieve` returns the tagged zero
value and `time.Now()` as the expiration. -/
theorem retrieveInner_failure_shape (env : Env) (p : Provider) (prof : Profile)
    (h : (retrieveInner env p prof).error ≠ none) :
    (retrieveInner env p prof).value = taggedZeroValue ∧
    (retrieveInner env p prof).expiration = env.now := by
  rcases hmk : mkParams env p prof with e | params
  · simp [retrieveInner, hmk]
  · rcases har : env.assumeRole params with e | out
    · simp [retrieveInner, hmk, har]
    · exact absurd (by simp [retrieveInner, hmk, har]) h

/-- C10: when profile loading succeeds but the live refresh fails, `Retrieve`
still builds a record whose credentials are the tagged zero value and
whose expiration is the current time, persists it under `"credentials"`,
and returns those zero credentials with a nil error. -/
theorem c10_failed_refresh_caches_zero_and_returns_nil_error (env : Env)
    (p : Provider) (prof : Profile) (cache : CacheMap) (s : String)
    (hc : p.cache = some cache)
    (hmiss : ((loadCachedCreds env cache).match prof &&
              !(loadCachedCreds env cache).isExpired env.now) = false)
    (hfail : (retrieveInner env p prof).error ≠ none)
    (hm : env.marshal { profile := prof, credentials := taggedZeroValue,
                        expiration := env.now } = some s) :
    Retrieve env p (Except.ok prof) =
      some { value := taggedZeroValue, error := none,
             cacheAfter := some (cacheSet cache "credentials" s),
             tokenInvoked := (retrieveInner env p prof).tokenInvoked,
             networkCalls := (retrieveInner env p prof).networkCalls } := by
  obtain ⟨hv, he⟩ := retrieveInner_failure_shape env p prof hfail
  simp [Retrieve, hc, hmiss, hv, he, persistRecord, hm]

/-- Witness for C10: token-source failure with an MFA profile and an empty
cache yields zero credentials, a nil error, and a persisted record. -/
theorem c10_failed_refresh_witness :
    Retrieve envTokenFail provEmptyCache (Except.ok mfaProf) =
      some { value := taggedZeroValue, error := none,
             cacheAfter := some (cacheSet [] "credentials" "recjson"),
             tokenInvoked := (retrieveInner envTokenFail provEmptyCache mfaProf).tokenInvoked,
             networkCalls := (retrieveInner envTokenFail provEmptyCache mfaProf).networkCalls } :=
  c10_failed_refresh_caches_zero_and_returns_nil_error envTokenFail
    provEmptyCache mfaProf [] "recjson" rfl rfl (by decide) rfl

end Profilecreds
